import Mathlib

/-!
Verification of the iTerm2 command-line bridge (`src/iterm2_bridge.py`).

The program is a one-shot dispatcher: it reads a command name and an
optional positional argument from the command line, connects to the host
terminal application, walks Application → current window → current tab →
current session, performs one operation against that session, and prints
exactly one JSON object to standard output.

The shallow embedding below models the host application's observable API
state (`Host`): whether the connection or the application lookup faults,
and the window/tab/session chain with the session's screen buffer and
per-operation faults.  Each inline async handler of `main` is translated
to a pure function returning a `HandlerOut` (an outcome that is either a
result dictionary or a propagating exception message, together with the
list of texts sent to the session and the number of session-metadata
queries performed).  The top-level dispatcher `main` is translated to a
function producing `Effects`: the list of JSON objects printed to stdout,
the number of connection attempts, the texts sent, and the metadata
queries.
-/

namespace Iterm2Bridge

/-- One terminal session of the host application.  `screen` models the
result of `async_get_screen_contents` (`none` for a falsy contents object,
`some rows` for a buffer whose line `i` has text `rows[i]`); `screenFault`
and `sendFault` model exceptions raised by `async_get_screen_contents` and
`async_send_text`; `tty` is the session's actual controlling terminal
device and `processing` its actual foreground-process-busy state (neither
is consulted by the command handlers). -/
structure Session where
  screen : Option (List String)
  screenFault : Option String
  sendFault : Option String
  tty : String
  processing : Bool
deriving Repr, DecidableEq

/-- A tab of the host application; `current_session` mirrors
`tab.current_session`, which may be absent. -/
structure Tab where
  current_session : Option Session
deriving Repr, DecidableEq

/-- A window of the host application; `current_tab` mirrors
`window.current_tab`, which may be absent. -/
structure Window where
  current_tab : Option Tab
deriving Repr, DecidableEq

/-- The application handle; `current_terminal_window` mirrors
`app.current_terminal_window`, which may be absent. -/
structure App where
  current_terminal_window : Option Window
deriving Repr, DecidableEq

/-- The host application state observable by one invocation.
`connectFault` models an exception from `iterm2.Connection.async_create`,
`appFault` one from `iterm2.async_get_app`. -/
structure Host where
  connectFault : Option String
  appFault : Option String
  app : App
deriving Repr, DecidableEq

/-- The JSON object printed by one invocation: `{"success": true}`,
`{"success": true, "content": s}`, `{"success": true, "tty": s}`,
`{"success": true, "processing": b}`, or `{"success": false, "error": s}`. -/
inductive Result where
  | okUnit : Result
  | okContent : String → Result
  | okTty : String → Result
  | okProcessing : Bool → Result
  | err : String → Result
deriving Repr, DecidableEq

/-- Outcome of running one inline async handler: a returned result
dictionary, or an exception propagating out to `main`'s `try`/`except`. -/
inductive Outcome where
  | ok : Result → Outcome
  | fault : String → Outcome
deriving Repr, DecidableEq

/-- What one handler run produces: its outcome, the list of strings passed
to `session.async_send_text`, and the number of session-metadata queries
(`async_get_session_info`) performed. -/
structure HandlerOut where
  outcome : Outcome
  sent : List String
  infoQueries : Nat
deriving Repr, DecidableEq

/-- Observable effects of one whole invocation: the JSON objects printed
to standard output, the number of `Connection.async_create` attempts, the
texts sent to the session, and the metadata queries performed. -/
structure Effects where
  printed : List Result
  connects : Nat
  sent : List String
  infoQueries : Nat
deriving Repr, DecidableEq

/-- The control-character table of `send_control_async`
(`src/iterm2_bridge.py`, lines 216–224). -/
def control_map : List (String × Nat) :=
  [("c", 3), ("z", 26), ("d", 4), ("l", 12), ("]", 29), ("escape", 27), ("esc", 27)]

/-- ASCII lowercasing of one character: uppercase letters are shifted
into lowercase, everything else is unchanged. -/
def lowerChar (c : Char) : Char :=
  if 65 ≤ c.toNat ∧ c.toNat ≤ 90 then Char.ofNat (c.toNat + 32) else c

/-- Translation of Python's `char.lower()`: per-character lowercasing of
the string (restricted to the ASCII behavior, which is all the
control-table lookup against the ASCII keys can distinguish). -/
def pyLower (s : String) : String := String.mk (s.data.map lowerChar)

/-- The window → tab → session walk shared (by duplication) by every
inline handler: `app.current_terminal_window`, then `window.current_tab`,
then `tab.current_session`, any absence giving no session. -/
def resolve_session (host : Host) : Option Session :=
  match host.app.current_terminal_window with
  | none => none
  | some window =>
    match window.current_tab with
    | none => none
    | some tab => tab.current_session

/-- The inline handler `write_text_async` (lines 161–172): connect, get
the app, walk window → tab → session, send the text; any absence in the
walk falls through to the "No active session found" result. -/
def write_text_async (host : Host) (text : String) : HandlerOut :=
  match host.connectFault with
  | some e => ⟨.fault e, [], 0⟩
  | none =>
  match host.appFault with
  | some e => ⟨.fault e, [], 0⟩
  | none =>
  match host.app.current_terminal_window with
  | some window =>
    match window.current_tab with
    | some tab =>
      match tab.current_session with
      | some session =>
        match session.sendFault with
        | some e => ⟨.fault e, [], 0⟩
        | none => ⟨.ok .okUnit, [text], 0⟩
      | none => ⟨.ok (.err "No active session found"), [], 0⟩
    | none => ⟨.ok (.err "No active session found"), [], 0⟩
  | none => ⟨.ok (.err "No active session found"), [], 0⟩

/-- The inline handler `get_content_async` (lines 178–196): after the
walk, read the screen contents; for a truthy contents object join the
lines `contents.line(i).string` with a newline, for a falsy one return the
empty content. -/
def get_content_async (host : Host) : HandlerOut :=
  match host.connectFault with
  | some e => ⟨.fault e, [], 0⟩
  | none =>
  match host.appFault with
  | some e => ⟨.fault e, [], 0⟩
  | none =>
  match host.app.current_terminal_window with
  | some window =>
    match window.current_tab with
    | some tab =>
      match tab.current_session with
      | some session =>
        match session.screenFault with
        | some e => ⟨.fault e, [], 0⟩
        | none =>
          match session.screen with
          | some contents => ⟨.ok (.okContent (String.intercalate "\n" contents)), [], 0⟩
          | none => ⟨.ok (.okContent ""), [], 0⟩
      | none => ⟨.ok (.err "No active session found"), [], 0⟩
    | none => ⟨.ok (.err "No active session found"), [], 0⟩
  | none => ⟨.ok (.err "No active session found"), [], 0⟩

/-- The inline handler `send_control_async` (lines 207–233): after the
walk, lowercase the argument, look it up in the control map, and either
send the single character `chr(code)` or report the unknown control
character with the original argument interpolated. -/
def send_control_async (host : Host) (char : String) : HandlerOut :=
  match host.connectFault with
  | some e => ⟨.fault e, [], 0⟩
  | none =>
  match host.appFault with
  | some e => ⟨.fault e, [], 0⟩
  | none =>
  match host.app.current_terminal_window with
  | some window =>
    match window.current_tab with
    | some tab =>
      match tab.current_session with
      | some session =>
        let char_lower := pyLower char
        match control_map.lookup char_lower with
        | some control_code =>
          match session.sendFault with
          | some e => ⟨.fault e, [], 0⟩
          | none => ⟨.ok .okUnit, [String.singleton (Char.ofNat control_code)], 0⟩
        | none => ⟨.ok (.err ("Unknown control character: " ++ char)), [], 0⟩
      | none => ⟨.ok (.err "No active session found"), [], 0⟩
    | none => ⟨.ok (.err "No active session found"), [], 0⟩
  | none => ⟨.ok (.err "No active session found"), [], 0⟩

/-- The inline handler `get_tty_async` (lines 239–252): after the walk it
returns the fixed placeholder path without querying session metadata. -/
def get_tty_async (host : Host) : HandlerOut :=
  match host.connectFault with
  | some e => ⟨.fault e, [], 0⟩
  | none =>
  match host.appFault with
  | some e => ⟨.fault e, [], 0⟩
  | none =>
  match host.app.current_terminal_window with
  | some window =>
    match window.current_tab with
    | some tab =>
      match tab.current_session with
      | some _ => ⟨.ok (.okTty "/dev/ttys000"), [], 0⟩
      | none => ⟨.ok (.err "No active session found"), [], 0⟩
    | none => ⟨.ok (.err "No active session found"), [], 0⟩
  | none => ⟨.ok (.err "No active session found"), [], 0⟩

/-- The inline handler `is_processing_async` (lines 258–268): after the
walk it unconditionally reports `processing: false`. -/
def is_processing_async (host : Host) : HandlerOut :=
  match host.connectFault with
  | some e => ⟨.fault e, [], 0⟩
  | none =>
  match host.appFault with
  | some e => ⟨.fault e, [], 0⟩
  | none =>
  match host.app.current_terminal_window with
  | some window =>
    match window.current_tab with
    | some tab =>
      match tab.current_session with
      | some _ => ⟨.ok (.okProcessing false), [], 0⟩
      | none => ⟨.ok (.err "No active session found"), [], 0⟩
    | none => ⟨.ok (.err "No active session found"), [], 0⟩
  | none => ⟨.ok (.err "No active session found"), [], 0⟩

/-- Turn one handler run into the invocation's effects: `main` prints
`json.dumps(result)` for a returned result, and its `except` clause prints
`{"success": false, "error": str(e)}` for a propagating exception; either
way exactly one connection attempt was made. -/
def emit (h : HandlerOut) : Effects :=
  match h.outcome with
  | .ok r => ⟨[r], 1, h.sent, h.infoQueries⟩
  | .fault e => ⟨[.err e], 1, h.sent, h.infoQueries⟩

/-- The dispatcher `main` (lines 145–277).  `argv` is `sys.argv[1:]`: the
command name followed by the positional arguments.  Argument-presence
checks happen before any handler runs (so before any connection attempt);
unknown commands are rejected without connecting. -/
def main (host : Host) (argv : List String) : Effects :=
  match argv with
  | [] => ⟨[.err "No command specified"], 0, [], 0⟩
  | command :: args =>
    if command = "write_text" then
      match args with
      | [] => ⟨[.err "No text provided"], 0, [], 0⟩
      | text :: _ => emit (write_text_async host text)
    else if command = "get_content" then
      emit (get_content_async host)
    else if command = "send_control" then
      match args with
      | [] => ⟨[.err "No control character provided"], 0, [], 0⟩
      | char :: _ => emit (send_control_async host char)
    else if command = "get_tty" then
      emit (get_tty_async host)
    else if command = "is_processing" then
      emit (is_processing_async host)
    else
      ⟨[.err ("Unknown command: " ++ command)], 0, [], 0⟩

/-- The control-code table exactly as the specification lists it
(`c→3, z→26, d→4, l→12, ]→29, escape→27, esc→27`), to be compared with the
code's `control_map`. -/
def specControlTable : List (String × Nat) :=
  [("c", 3), ("z", 26), ("d", 4), ("l", 12), ("]", 29), ("escape", 27), ("esc", 27)]

theorem spec_table_eq_control_map : specControlTable = control_map := rfl

/-- A concrete session: two screen rows, no faults, a real tty path that
differs from the placeholder, and a busy foreground process. -/
def session0 : Session :=
  ⟨some ["foo", "bar"], none, none, "/dev/ttys005", true⟩

/-- A concrete host whose walk resolves to `session0`. -/
def host0 : Host := ⟨none, none, ⟨some ⟨some ⟨some session0⟩⟩⟩⟩

/-- A concrete host identical to `host0` on everything `get_content`
observes, but with a different tty path, processing state and send
fault. -/
def host0b : Host :=
  ⟨none, none, ⟨some ⟨some ⟨some
    ⟨some ["foo", "bar"], none, some "send failed", "/dev/ttys009", false⟩⟩⟩⟩⟩

/-- A concrete host whose session's screen contents are falsy. -/
def hostNoScreen : Host :=
  ⟨none, none, ⟨some ⟨some ⟨some ⟨none, none, none, "/dev/ttys005", false⟩⟩⟩⟩⟩

/-- A concrete host with no current terminal window. -/
def hostNoWindow : Host := ⟨none, none, ⟨none⟩⟩

/-- A concrete host with a window and tab but no current session. -/
def hostNoSession : Host := ⟨none, none, ⟨some ⟨some ⟨none⟩⟩⟩⟩

/-- A concrete host whose connection attempt raises. -/
def hostBadConnect : Host := ⟨some "boom", none, ⟨none⟩⟩

/-- C1: with a resolvable session, if the argument's lowercased form is a
key of the fixed table `{c:3, z:26, d:4, l:12, ]:29, escape:27, esc:27}`
then exactly the one-character string `chr(code)` is sent and the output
is `{success: true}`; otherwise nothing is sent and the output is
`{success: false, error: "Unknown control character: <input>"}` with the
original input interpolated. -/
theorem send_control_contract (host : Host) (char : String) (session : Session)
    (hc : host.connectFault = none) (ha : host.appFault = none)
    (hs : resolve_session host = some session) (hf : session.sendFault = none) :
    (∀ code, specControlTable.lookup (pyLower char) = some code →
      send_control_async host char =
        ⟨.ok .okUnit, [String.singleton (Char.ofNat code)], 0⟩) ∧
    (specControlTable.lookup (pyLower char) = none →
      send_control_async host char =
        ⟨.ok (.err ("Unknown control character: " ++ char)), [], 0⟩) := by
  rcases hw : host.app.current_terminal_window with _ | window
  · simp [resolve_session, hw] at hs
  · rcases ht : window.current_tab with _ | tab
    · simp [resolve_session, hw, ht] at hs
    · simp only [resolve_session, hw, ht] at hs
      constructor
      · intro code hcode
        rw [spec_table_eq_control_map] at hcode
        simp [send_control_async, hc, ha, hw, ht, hs, hcode, hf]
      · intro hcode
        rw [spec_table_eq_control_map] at hcode
        simp [send_control_async, hc, ha, hw, ht, hs, hcode]

/-- Witness for C1: `send_control C` (uppercase) sends the single
character with code 3 and succeeds; `send_control zz` sends nothing and
reports the unknown control character. -/
theorem send_control_contract_witness :
    send_control_async host0 "C" =
      ⟨.ok .okUnit, [String.singleton (Char.ofNat 3)], 0⟩ ∧
    send_control_async host0 "zz" =
      ⟨.ok (.err ("Unknown control character: " ++ "zz")), [], 0⟩ :=
  ⟨(send_control_contract host0 "C" session0 rfl rfl rfl rfl).1 3 (by decide),
   (send_control_contract host0 "zz" session0 rfl rfl rfl rfl).2 (by decide)⟩

/-- C2: with a resolvable session whose screen buffer holds rows
`r1..rn`, `get_content` outputs `{success: true, content: r1 ++ "\n" ++
... ++ "\n" ++ rn}` (rows joined by single newlines, in row order); a
falsy buffer gives the empty content string (as does an empty row list,
since the join of no rows is empty). -/
theorem get_content_contract (host : Host) (session : Session)
    (hc : host.connectFault = none) (ha : host.appFault = none)
    (hs : resolve_session host = some session) (hsf : session.screenFault = none) :
    (∀ rows, session.screen = some rows →
      get_content_async host =
        ⟨.ok (.okContent (String.intercalate "\n" rows)), [], 0⟩) ∧
    (session.screen = none →
      get_content_async host = ⟨.ok (.okContent ""), [], 0⟩) := by
  rcases hw : host.app.current_terminal_window with _ | window
  · simp [resolve_session, hw] at hs
  · rcases ht : window.current_tab with _ | tab
    · simp [resolve_session, hw, ht] at hs
    · simp only [resolve_session, hw, ht] at hs
      constructor
      · intro rows hrows
        simp [get_content_async, hc, ha, hw, ht, hs, hsf, hrows]
      · intro hrows
        simp [get_content_async, hc, ha, hw, ht, hs, hsf, hrows]

/-- Witness for C2: a two-row buffer `["foo", "bar"]` gives content
`"foo\nbar"`; a falsy buffer gives content `""`. -/
theorem get_content_contract_witness :
    get_content_async host0 = ⟨.ok (.okContent "foo\nbar"), [], 0⟩ ∧
    get_content_async hostNoScreen = ⟨.ok (.okContent ""), [], 0⟩ :=
  ⟨(get_content_contract host0 session0 rfl rfl rfl rfl).1 ["foo", "bar"] rfl,
   (get_content_contract hostNoScreen ⟨none, none, none, "/dev/ttys005", false⟩
      rfl rfl rfl rfl).2 rfl⟩

/-- C3: for every one of the five valid commands, when the walk fails at
any step (no current window, or no current tab, or no current session)
the effects are exactly one printed `{success: false, error: "No active
session found"}`, identical regardless of the absent step and of which
command was invoked, with one connection attempt, nothing sent and no
metadata query. -/
theorem resolution_failure_uniform (host : Host) (arg : String)
    (hc : host.connectFault = none) (ha : host.appFault = none)
    (hs : resolve_session host = none) :
    main host ["write_text", arg] = ⟨[.err "No active session found"], 1, [], 0⟩ ∧
    main host ["get_content"] = ⟨[.err "No active session found"], 1, [], 0⟩ ∧
    main host ["send_control", arg] = ⟨[.err "No active session found"], 1, [], 0⟩ ∧
    main host ["get_tty"] = ⟨[.err "No active session found"], 1, [], 0⟩ ∧
    main host ["is_processing"] = ⟨[.err "No active session found"], 1, [], 0⟩ := by
  rcases hw : host.app.current_terminal_window with _ | window
  · refine ⟨?_, ?_, ?_, ?_, ?_⟩ <;>
      simp [main, emit, write_text_async, get_content_async, send_control_async,
        get_tty_async, is_processing_async, hc, ha, hw]
  · rcases ht : window.current_tab with _ | tab
    · refine ⟨?_, ?_, ?_, ?_, ?_⟩ <;>
        simp [main, emit, write_text_async, get_content_async, send_control_async,
          get_tty_async, is_processing_async, hc, ha, hw, ht]
    · have hss : tab.current_session = none := by
        simpa [resolve_session, hw, ht] using hs
      refine ⟨?_, ?_, ?_, ?_, ?_⟩ <;>
        simp [main, emit, write_text_async, get_content_async, send_control_async,
          get_tty_async, is_processing_async, hc, ha, hw, ht, hss]

/-- Witness for C3: with no current window (`hostNoWindow`) and with a
window and tab but no current session (`hostNoSession`), every command
reports the uniform error. -/
theorem resolution_failure_uniform_witness :
    main hostNoWindow ["get_content"] = ⟨[.err "No active session found"], 1, [], 0⟩ ∧
    main hostNoSession ["write_text", "hello"] =
      ⟨[.err "No active session found"], 1, [], 0⟩ :=
  ⟨(resolution_failure_uniform hostNoWindow "x" rfl rfl rfl).2.1,
   (resolution_failure_uniform hostNoSession "hello" rfl rfl rfl).1⟩

/-- Every handler run is printed as exactly one JSON object, whether the
handler returned a result or raised. -/
theorem emit_one_printed (h : HandlerOut) : ∃ r, (emit h).printed = [r] := by
  cases h with
  | mk outcome sent infoQueries => cases outcome <;> exact ⟨_, rfl⟩

/-- C4: for every command name, argument list and host state (including
any fault raised by the external API during connect or resolution), the
program prints exactly one JSON object to standard output; an exception
reaching the dispatcher is converted to `{success: false, error: <the
exception message>}`, here instantiated for a connect fault on each of the
five valid commands. -/
theorem main_single_json_output (host : Host) (argv : List String) :
    (∃ r : Result, (main host argv).printed = [r]) ∧
    (∀ e text ch, host.connectFault = some e →
      (main host ["write_text", text]).printed = [.err e] ∧
      (main host ["get_content"]).printed = [.err e] ∧
      (main host ["send_control", ch]).printed = [.err e] ∧
      (main host ["get_tty"]).printed = [.err e] ∧
      (main host ["is_processing"]).printed = [.err e]) := by
  constructor
  · match argv with
    | [] => exact ⟨_, rfl⟩
    | command :: args =>
      simp only [main]
      split_ifs
      · match args with
        | [] => exact ⟨_, rfl⟩
        | text :: _ => exact emit_one_printed _
      · exact emit_one_printed _
      · match args with
        | [] => exact ⟨_, rfl⟩
        | ch :: _ => exact emit_one_printed _
      · exact emit_one_printed _
      · exact emit_one_printed _
      · exact ⟨_, rfl⟩
  · intro e text ch hce
    refine ⟨?_, ?_, ?_, ?_, ?_⟩ <;>
      simp [main, emit, write_text_async, get_content_async, send_control_async,
        get_tty_async, is_processing_async, hce]

/-- Witness for C4: a host whose connection attempt raises "boom" still
yields exactly one printed object, and that object is the converted
error. -/
theorem main_single_json_output_witness :
    (∃ r : Result, (main hostBadConnect ["get_content"]).printed = [r]) ∧
    (main hostBadConnect ["get_content"]).printed = [.err "boom"] :=
  ⟨(main_single_json_output hostBadConnect ["get_content"]).1,
   ((main_single_json_output hostBadConnect ["get_content"]).2 "boom" "t" "c" rfl).2.1⟩

/-- C5: `write_text` with no second argument prints `{success: false,
error: "No text provided"}`, `send_control` with none prints `{success:
false, error: "No control character provided"}`, and no command at all
prints `{success: false, error: "No command specified"}`; in all three
cases the connection-attempt count is 0 — no connection to the host
application is attempted. -/
theorem missing_argument_validation (host : Host) :
    main host ["write_text"] = ⟨[.err "No text provided"], 0, [], 0⟩ ∧
    main host ["send_control"] = ⟨[.err "No control character provided"], 0, [], 0⟩ ∧
    main host [] = ⟨[.err "No command specified"], 0, [], 0⟩ :=
  ⟨rfl, rfl, rfl⟩

/-- C6: with a resolvable session, `get_tty` prints `{success: true,
tty: "/dev/ttys000"}` — the fixed placeholder — for every host state, so
independently of the session's actual `tty` field, and the
session-metadata query count is 0. -/
theorem get_tty_placeholder (host : Host) (session : Session)
    (hc : host.connectFault = none) (ha : host.appFault = none)
    (hs : resolve_session host = some session) :
    main host ["get_tty"] = ⟨[.okTty "/dev/ttys000"], 1, [], 0⟩ := by
  rcases hw : host.app.current_terminal_window with _ | window
  · simp [resolve_session, hw] at hs
  · rcases ht : window.current_tab with _ | tab
    · simp [resolve_session, hw, ht] at hs
    · simp only [resolve_session, hw, ht] at hs
      simp [main, emit, get_tty_async, hc, ha, hw, ht, hs]

/-- Witness for C6: `host0`'s session has actual tty `/dev/ttys005`, yet
the command reports the placeholder `/dev/ttys000`. -/
theorem get_tty_placeholder_witness :
    main host0 ["get_tty"] = ⟨[.okTty "/dev/ttys000"], 1, [], 0⟩ ∧
    session0.tty = "/dev/ttys005" :=
  ⟨get_tty_placeholder host0 session0 rfl rfl rfl, rfl⟩

/-- C7: with a resolvable session, `is_processing` prints `{success:
true, processing: false}` for every host state, so regardless of the
session's actual `processing` field. -/
theorem is_processing_always_false (host : Host) (session : Session)
    (hc : host.connectFault = none) (ha : host.appFault = none)
    (hs : resolve_session host = some session) :
    main host ["is_processing"] = ⟨[.okProcessing false], 1, [], 0⟩ := by
  rcases hw : host.app.current_terminal_window with _ | window
  · simp [resolve_session, hw] at hs
  · rcases ht : window.current_tab with _ | tab
    · simp [resolve_session, hw, ht] at hs
    · simp only [resolve_session, hw, ht] at hs
      simp [main, emit, is_processing_async, hc, ha, hw, ht, hs]

/-- Witness for C7: `host0`'s session is actually busy (`processing =
true`), yet the command reports `processing: false`. -/
theorem is_processing_always_false_witness :
    main host0 ["is_processing"] = ⟨[.okProcessing false], 1, [], 0⟩ ∧
    session0.processing = true :=
  ⟨is_processing_always_false host0 session0 rfl rfl rfl, rfl⟩

/-- C8: for every command name outside the five valid ones, the program
prints `{success: false, error: "Unknown command: <name>"}` with the name
interpolated, and the connection-attempt count is 0. -/
theorem unknown_command_rejected (host : Host) (command : String) (args : List String)
    (h1 : command ≠ "write_text") (h2 : command ≠ "get_content")
    (h3 : command ≠ "send_control") (h4 : command ≠ "get_tty")
    (h5 : command ≠ "is_processing") :
    main host (command :: args) =
      ⟨[.err ("Unknown command: " ++ command)], 0, [], 0⟩ := by
  simp [main, h1, h2, h3, h4, h5]

/-- Witness for C8: the command name `frobnicate` is rejected without a
connection attempt. -/
theorem unknown_command_rejected_witness :
    main host0 ["frobnicate"] =
      ⟨[.err ("Unknown command: " ++ "frobnicate")], 0, [], 0⟩ :=
  unknown_command_rejected host0 "frobnicate" [] (by decide) (by decide)
    (by decide) (by decide) (by decide)

/-- Everything `get_content` can observe of a host: the connect and app
faults, and the window → tab → session chain restricted to the session's
screen fault and screen buffer. -/
def get_content_view (host : Host) :
    Option String × Option String ×
      Option (Option (Option (Option String × Option (List String)))) :=
  (host.connectFault, host.appFault,
    host.app.current_terminal_window.map (fun window =>
      window.current_tab.map (fun tab =>
        tab.current_session.map (fun session =>
          (session.screenFault, session.screen)))))

theorem main_get_content_eq (host : Host) :
    main host ["get_content"] = emit (get_content_async host) := rfl

/-- C9: `get_content` is a deterministic function of the host API's
responses — two invocations against hosts that agree on everything the
command observes (same resolution chain, same screen fault, same screen
buffer) produce identical effects, so two runs against the same unchanged
host state produce identical outputs and no hidden mutable state affects
the read. -/
theorem get_content_deterministic (h1 h2 : Host)
    (hv : get_content_view h1 = get_content_view h2) :
    main h1 ["get_content"] = main h2 ["get_content"] := by
  rw [main_get_content_eq, main_get_content_eq]
  rcases h1 with ⟨c1, a1, ⟨w1⟩⟩
  rcases h2 with ⟨c2, a2, ⟨w2⟩⟩
  simp only [get_content_view, Prod.mk.injEq] at hv
  obtain ⟨hc, ha, hw⟩ := hv
  subst hc; subst ha
  cases c1 with
  | some e => rfl
  | none =>
    cases a1 with
    | some e => rfl
    | none =>
      cases w1 with
      | none => cases w2 with
        | none => rfl
        | some window2 => simp at hw
      | some window1 =>
        cases w2 with
        | none => simp at hw
        | some window2 =>
          simp only [Option.map_some', Option.some.injEq] at hw
          rcases window1 with ⟨t1⟩
          rcases window2 with ⟨t2⟩
          cases t1 with
          | none => cases t2 with
            | none => rfl
            | some tab2 => simp at hw
          | some tab1 =>
            cases t2 with
            | none => simp at hw
            | some tab2 =>
              simp only [Option.map_some', Option.some.injEq] at hw
              rcases tab1 with ⟨s1⟩
              rcases tab2 with ⟨s2⟩
              cases s1 with
              | none => cases s2 with
                | none => rfl
                | some sess2 => simp at hw
              | some sess1 =>
                cases s2 with
                | none => simp at hw
                | some sess2 =>
                  simp only [Option.map_some', Option.some.injEq,
                    Prod.mk.injEq] at hw
                  obtain ⟨hsf, hsc⟩ := hw
                  simp only [get_content_async, hsf, hsc]

/-- Witness for C9: `host0` and `host0b` agree on everything
`get_content` observes but differ in tty path, processing state and send
fault; the outputs coincide. -/
theorem get_content_deterministic_witness :
    main host0 ["get_content"] = main host0b ["get_content"] :=
  get_content_deterministic host0 host0b rfl

/-- C10: in `send_control` the session walk is checked before the
control-code lookup: for every input string, recognized or not, when no
window, tab or session is resolvable the output is the uniform `{success:
false, error: "No active session found"}` — never the unknown-control
error. -/
theorem send_control_resolution_first (host : Host) (char : String)
    (hc : host.connectFault = none) (ha : host.appFault = none)
    (hs : resolve_session host = none) :
    main host ["send_control", char] =
      ⟨[.err "No active session found"], 1, [], 0⟩ := by
  rcases hw : host.app.current_terminal_window with _ | window
  · simp [main, emit, send_control_async, hc, ha, hw]
  · rcases ht : window.current_tab with _ | tab
    · simp [main, emit, send_control_async, hc, ha, hw, ht]
    · have hss : tab.current_session = none := by
        simpa [resolve_session, hw, ht] using hs
      simp [main, emit, send_control_async, hc, ha, hw, ht, hss]

/-- Witness for C10: the unrecognized name `zz` sent when no window is
open still reports "No active session found", not the unknown-control
error. -/
theorem send_control_resolution_first_witness :
    main hostNoWindow ["send_control", "zz"] =
      ⟨[.err "No active session found"], 1, [], 0⟩ :=
  send_control_resolution_first hostNoWindow "zz" rfl rfl rfl

end Iterm2Bridge
